import Mathlib

/-!
# Verification of the content-analysis engine and processing pipeline

Shallow embedding of the analysis/orchestration core of the
course-content-to-study-material generator backend:

* `app/utils/content_analyzer.py` — concept extraction and scoring,
  relationship identification, knowledge-graph / concept-map building,
  content chunking (`ContentAnalyzer`);
* `app/utils/error_handlers.py` — error classification and the retry
  executor (`ErrorRecoveryManager`);
* `app/utils/cache_manager.py` — the TTL cache (`CacheManager`);
* `app/api/v1/endpoints/documents.py` — the processing-job state machine
  (`simulate_document_processing`).

Python strings are modelled as `List Char` (`Str`); Python ASCII string
operations (`lower`, `strip`, `find`, `in`, `split`, regex searches over
literal patterns with `.*?` gaps) are implemented character by character.
Python floats are modelled as rationals: every constant involved
(0.1, 0.2, 0.3, 0.5, 0.6, 0.7, 1.0, frequencies over 10) is exactly
representable and the compared magnitudes are far from the rounding
granularity of IEEE doubles at these scales.

External collaborators (spaCy NER/noun-chunk candidates, the
sentence-embedding similarity, the Redis client) are passed in as explicit
oracles, mirroring the interface boundary of the spec.
-/

namespace StudyGen

/-! ### Kernel-computable rational arithmetic

The `Mul`/`Add`/`Div` instances on `ℚ` bottom out in `@[irreducible]`
Batteries definitions, which blocks evaluation inside `decide`/`rfl`
proofs at concrete inputs.  `Rat.divInt` does reduce, so the embedding
uses the following wrappers, each proved equal to the standard
operation. -/

/-- Rational division, kernel-computable. -/
def qdiv (a b : ℚ) : ℚ := Rat.divInt (a.num * (b.den : Int)) ((a.den : Int) * b.num)

/-- Rational multiplication, kernel-computable. -/
def qmul (a b : ℚ) : ℚ := Rat.divInt (a.num * b.num) ((a.den : Int) * (b.den : Int))

/-- Rational addition, kernel-computable. -/
def qadd (a b : ℚ) : ℚ := Rat.divInt (a.num * (b.den : Int) + b.num * (a.den : Int)) ((a.den : Int) * (b.den : Int))

theorem qdiv_eq (a b : ℚ) : qdiv a b = a / b := by
  rw [qdiv]
  conv_rhs => rw [← Rat.num_divInt_den a, ← Rat.num_divInt_den b]
  rw [Rat.divInt_div_divInt]

theorem qmul_eq (a b : ℚ) : qmul a b = a * b := by
  rw [qmul]
  conv_rhs => rw [← Rat.num_divInt_den a, ← Rat.num_divInt_den b]
  rw [Rat.divInt_mul_divInt']

theorem qadd_eq (a b : ℚ) : qadd a b = a + b := by
  rw [qadd]
  conv_rhs => rw [← Rat.num_divInt_den a, ← Rat.num_divInt_den b]
  rw [Rat.divInt_add_divInt _ _ (by exact_mod_cast a.den_nz) (by exact_mod_cast b.den_nz)]

theorem mkRat_eq_div (n : Int) (d : Nat) : mkRat n d = (n : ℚ) / (d : ℚ) := by
  rw [Rat.mkRat_eq_divInt, Rat.divInt_eq_div]
  norm_num

/-- Python `str`, modelled as a list of characters (ASCII inputs). -/
abbrev Str := List Char

/-- Coerce a Lean string literal to the `Str` model. -/
def str (s : String) : Str := s.data

/-- Python `str.lower()` for ASCII text. -/
def lowerStr (s : Str) : Str := s.map Char.toLower

/-- Whitespace stripped by Python `str.strip()`. -/
def isPySpace (c : Char) : Bool :=
  c = ' ' || c = '\t' || c = '\n' || c = '\r' || c = '\x0b' || c = '\x0c'

/-- Python `str.strip()`: drop leading and trailing whitespace. -/
def stripStr (s : Str) : Str :=
  ((s.dropWhile isPySpace).reverse.dropWhile isPySpace).reverse

/-- First index at which `needle` occurs in `hay`, starting the count at
`i`; `none` when it does not occur.  Helper for Python `str.find` and the
`in` operator. -/
def findAux (hay needle : Str) (i : Nat) : Option Nat :=
  match hay with
  | [] => if needle = [] then some i else none
  | _ :: t => if needle.isPrefixOf hay then some i else findAux t needle (i + 1)

/-- Python `str.find`: index of the first occurrence, `-1` when absent. -/
def strFind (hay needle : Str) : Int :=
  match findAux hay needle 0 with
  | some n => (n : Int)
  | none => -1

/-- Python `needle in hay` (substring containment). -/
def subContains (hay needle : Str) : Bool :=
  (findAux hay needle 0).isSome

/-- Python `s[a:b]` for `0 ≤ a ≤ b` (clamped at the ends like Python). -/
def slice (s : Str) (a b : Nat) : Str := (s.drop a).take (b - a)

/-- Python `str.split(sep)` for a single-character separator. -/
def splitChar (sep : Char) : Str → List Str
  | [] => [[]]
  | c :: t =>
    match splitChar sep t with
    | [] => [[]]
    | w :: ws => if c = sep then [] :: w :: ws else (c :: w) :: ws

/-- A regex word character (`\w`) over ASCII: alphanumeric or underscore. -/
def isWordChar (c : Char) : Bool := c.isAlphanum || c = '_'

/-- Whether a `\b` word boundary holds between an (optional) preceding
character and a following character. -/
def isBoundary (prev : Option Char) (next : Char) : Bool :=
  match prev with
  | none => isWordChar next
  | some p => isWordChar p != isWordChar next

/-- Whether a `\b` word boundary holds between a (nonempty) preceding
match and the (optional) following character. -/
def isBoundaryAfter (lastOfMatch : Char) (rest : Str) : Bool :=
  match rest with
  | [] => isWordChar lastOfMatch
  | c :: _ => isWordChar lastOfMatch != isWordChar c

/-- Number of non-overlapping matches of `re.findall(r'\b' + re.escape(needle)
+ r'\b', hay)` (line 116 of `content_analyzer.py`), scanning left to right.
`prev` is the character just before the current position; `fuel` bounds the
scan (one unit per character examined, so `hay.length` suffices). -/
def countWBAux (needle : Str) : Nat → Option Char → Str → Nat
  | 0, _, _ => 0
  | _ + 1, _, [] => 0
  | fuel + 1, prev, c :: t =>
    if needle ≠ [] && needle.isPrefixOf (c :: t) &&
        isBoundary prev (needle.headD ' ') &&
        isBoundaryAfter (needle.getLastD ' ') ((c :: t).drop needle.length) then
      1 + countWBAux needle fuel (some (needle.getLastD ' ')) ((c :: t).drop needle.length)
    else
      countWBAux needle fuel (some c) t

/-- Count of whole-word occurrences of `needle` in `hay`. -/
def countWordOccurrences (hay needle : Str) : Nat :=
  countWBAux needle hay.length none hay

/-! ## Data model (`app/schemas/document.py`, concept/relationship dicts) -/

/-- A section position, the `{"page": …, "order": …}` dict. -/
structure Position where
  page : Int
  order : Int
deriving DecidableEq

/-- One entry of `NormalizedDocument.sections`: a dict with keys
`type`, `level`, `content`, `position`. -/
structure Section where
  type : Str
  level : Int
  content : Str
  position : Position
deriving DecidableEq

/-- Model of the pydantic `NormalizedDocument`: `document_id` is a required
field, so `hasattr(doc, 'document_id')` is `True` for every instance. -/
structure NormalizedDocument where
  document_id : Str
  sections : List Section
deriving DecidableEq

/-- Embeds `" ".join([section["content"] for section in document.sections])`. -/
def joinSections (doc : NormalizedDocument) : Str :=
  List.intercalate (str " ") (doc.sections.map (·.content))

/-- A concept dict as built by `ContentAnalyzer._extract_concepts`. -/
structure Concept where
  term : Str
  definition : Str
  importance_score : ℚ
  category : Str
  examples : List Str
  related_concepts : List Str
  page_reference : Str
deriving DecidableEq

/-- Junk value used only for out-of-range `getD` accesses that are proved
never to happen. -/
def defaultConcept : Concept :=
  ⟨[], [], 0, [], [], [], []⟩

/-- A relationship dict as built by `ContentAnalyzer._identify_relationships`.
The Python dict keys `"from"`/`"to"`/`"type"` are Lean keywords, hence the
`rel_` prefixes. -/
structure Relationship where
  rel_from : Str
  rel_to : Str
  rel_type : Str
  strength : ℚ
  description : Str
deriving DecidableEq

/-! ## Importance scoring (`_calculate_importance_score`, lines 156-183) -/

/-- Embeds `ContentAnalyzer._appears_in_heading`: the concept occurs
(case-insensitively) in one of the first 10 lines, in a line shorter
than 100 characters. -/
def appears_in_heading (concept all_text : Str) : Bool :=
  ((splitChar '\n' all_text).take 10).any fun line =>
    subContains (lowerStr line) (lowerStr concept) && line.length < 100

/-- Embeds `ContentAnalyzer._calculate_importance_score`:
`min(frequency/10, 0.5) * position_factor + heading_boost`, capped at 1.0,
where `position_factor ∈ {1.0, 0.7, 0.5}` by the position of the first
occurrence relative to 30% / 60% of the text, and `heading_boost ∈ {0.2, 0}`. -/
def calculate_importance_score (concept all_text : Str) (frequency : Nat) : ℚ :=
  let base_score : ℚ := min (qdiv (frequency : ℚ) 10) (mkRat 1 2)
  let first_occurrence : Int := strFind (lowerStr all_text) (lowerStr concept)
  let position_factor : ℚ :=
    if (first_occurrence : ℚ) < qmul (all_text.length : ℚ) (mkRat 3 10) then 1
    else if (first_occurrence : ℚ) < qmul (all_text.length : ℚ) (mkRat 6 10) then mkRat 7 10
    else mkRat 1 2
  let heading_boost : ℚ := if appears_in_heading concept all_text then mkRat 2 10 else 0
  min (qadd (qmul base_score position_factor) heading_boost) 1

/-! ## Literal-pattern regex scans

The regexes of `content_analyzer.py` only combine `re.escape`d literals,
`.*?` gaps (which exclude newlines: `re.DOTALL` is never set) and `|`
alternation, so they reduce to substring scans. -/

/-- All non-overlapping matches of the literal `needle` in `hay`
(`re.finditer` with an escaped pattern), as `(start, end)` index pairs.
`fuel` bounds the scan; one unit per character suffices. -/
def findMatchesAux (needle : Str) : Nat → Nat → Str → List (Nat × Nat)
  | 0, _, _ => []
  | _ + 1, _, [] => []
  | fuel + 1, i, c :: t =>
    if needle ≠ [] && needle.isPrefixOf (c :: t) then
      (i, i + needle.length) ::
        findMatchesAux needle fuel (i + needle.length) ((c :: t).drop needle.length)
    else
      findMatchesAux needle fuel (i + 1) t

/-- Non-overlapping matches of a literal, left to right. -/
def findMatches (hay needle : Str) : List (Nat × Nat) :=
  findMatchesAux needle hay.length 0 hay

/-- One character of a compiled regex pattern: `none` stands for an
unescaped `.`, which matches any character except a newline. -/
abbrev PatChar := Option Char

/-- Compile a string interpolated into a regex without `re.escape` (the
example indicators at line 222): its dots become wildcards. -/
def patOfRaw (s : Str) : List PatChar :=
  s.map fun c => if c = '.' then none else some c

/-- Compile a `re.escape`d string: every character is literal. -/
def patOfLit (s : Str) : List PatChar := s.map some

/-- Whether one pattern character matches one text character. -/
def patCharMatches (pc : PatChar) (c : Char) : Bool :=
  match pc with
  | some x => x = c
  | none => c ≠ '\n'

/-- Whether the pattern matches a prefix of `s` (one character each). -/
def patIsPrefix : List PatChar → Str → Bool
  | [], _ => true
  | _ :: _, [] => false
  | pc :: p, c :: s => patCharMatches pc c && patIsPrefix p s

/-- Minimal `k` such that the pattern `needle` matches at offset `k` of
`s` and the skipped gap `s[0:k]` contains no newline — the lazy
`.*?needle` step. -/
def lazyGapFind (needle : List PatChar) : Str → Option Nat
  | [] => if needle = [] then some 0 else none
  | c :: t =>
    if patIsPrefix needle (c :: t) then some 0
    else if c = '\n' then none
    else (lazyGapFind needle t).map (· + 1)

/-- Length of the match of `a.*?b` anchored at the start of `s`
(case-insensitive: both patterns are pre-lowered), or `none`. -/
def tryBranch (a b : List PatChar) (s : Str) : Option Nat :=
  if patIsPrefix a (lowerStr s) then
    (lazyGapFind b (lowerStr (s.drop a.length))).map (fun k => a.length + k + b.length)
  else none

/-- Length of the leftmost-earliest match of `(ind.*?con|con.*?ind)`
anchored at the start of `s` (first alternative preferred), or `none`. -/
def tryMatchAt (ind con : List PatChar) (s : Str) : Option Nat :=
  (tryBranch ind con s).or (tryBranch con ind s)

/-- Embeds `re.findall(r"(ind.*?con|con.*?ind)", text, re.IGNORECASE)`:
the matched substrings (original case), scanning non-overlapping matches
left to right. `fuel` bounds the scan. -/
def findExMatches (ind con : List PatChar) : Nat → Str → List Str
  | 0, _ => []
  | _ + 1, [] => []
  | fuel + 1, s@(_ :: t) =>
    match tryMatchAt ind con s with
    | some len => s.take len :: findExMatches ind con fuel (s.drop len)
    | none => findExMatches ind con fuel t

/-- Whether `parts = [p₁, …, pₙ]` match in order in `t` with `.*?` gaps
(no newline inside a gap) before `p₁` excluded — i.e. `p₁` is anchored at
the start up to a gap-free choice; used after the anchor was consumed.
Backtracking over all gap widths, so this is pure existence. -/
def matchChainFrom : Nat → List Str → Str → Bool
  | 0, _, _ => false
  | _ + 1, [], _ => true
  | fuel + 1, b :: rest, t =>
    (b.isPrefixOf t && matchChainFrom fuel rest (t.drop b.length)) ||
      (match t with
       | [] => false
       | c :: t' => c ≠ '\n' && matchChainFrom fuel (b :: rest) t')

/-- Embeds `re.search` of `a.*?p₂.*?…pₙ` in `s`: try every start position for the
leading literal `a`, then chain the remaining parts with newline-free gaps. -/
def searchFirst (a : Str) (rest : List Str) : Str → Bool
  | [] => a.isPrefixOf [] && matchChainFrom 1 rest []
  | s@(_ :: t) =>
    (a.isPrefixOf s && matchChainFrom (s.length + rest.length + 1) rest (s.drop a.length)) ||
      searchFirst a rest t

/-- Embeds `re.search` of the chained-literal pattern `p₁.*?p₂.*?…pₙ` over `s`. -/
def searchChain (parts : List Str) (s : Str) : Bool :=
  match parts with
  | [] => true
  | a :: rest => searchFirst a rest s

/-- Python `str(page)` for the integer page number. -/
def intToStr (i : Int) : Str :=
  if i < 0 then '-' :: Nat.toDigits 10 i.natAbs else Nat.toDigits 10 i.toNat

/-! ## Definition, example and page lookup (lines 185-235) -/

/-- The literal parts of `ContentAnalyzer.definition_patterns`
(each Python pattern is `(?i)` plus a literal). -/
def definition_patterns : List Str :=
  [str "is defined as", str "refers to", str "means", str "is the", str "are the"]

/-- Embeds `ContentAnalyzer.example_indicators`. -/
def example_indicators : List Str :=
  [str "for example", str "for instance", str "e.g.", str "such as", str "namely", str "like"]

/-- Embeds `ContentAnalyzer._find_definition`: first a definitional cue phrase with
the concept in a ±200-character window, then a context window around the
concept's first occurrence, then a placeholder. -/
def find_definition (concept : Str) (doc : NormalizedDocument) : Str :=
  let all_content := joinSections doc
  let candidates :=
    definition_patterns.flatMap fun p =>
      (findMatches (lowerStr all_content) (lowerStr p)).map fun me =>
        slice all_content (me.1 - 200) (min all_content.length (me.2 + 200))
  match candidates.find? (fun sent => subContains (lowerStr sent) (lowerStr concept)) with
  | some sent => stripStr sent
  | none =>
    match findAux (lowerStr all_content) (lowerStr concept) 0 with
    | some pos =>
      stripStr (slice all_content (pos - 10)
        (min all_content.length (pos + concept.length + 100)))
    | none => str "Definition for '" ++ concept ++ str "' not found in document"

/-- Embeds `ContentAnalyzer._find_examples`: for each indicator, all matches of
`(ind.*?concept|concept.*?ind)` case-insensitively; keep stripped matches
longer than 5 characters, at most 5 in total.  The indicator is
interpolated unescaped (its dots are wildcards), the concept is
`re.escape`d (literal). -/
def find_examples (concept : Str) (doc : NormalizedDocument) : List Str :=
  let all_content := joinSections doc
  let raw := example_indicators.flatMap fun ind =>
    findExMatches (patOfRaw (lowerStr ind)) (patOfLit (lowerStr concept))
      (all_content.length + 1) all_content
  ((raw.map stripStr).filter (fun m => 5 < m.length)).take 5

/-- Embeds `ContentAnalyzer._find_page_reference`: the page of the first section
containing the concept (case-insensitively), defaulting to `"1"`. -/
def find_page_reference (concept : Str) (doc : NormalizedDocument) : Str :=
  match doc.sections.find? (fun sec => subContains (lowerStr sec.content) (lowerStr concept)) with
  | some sec => intToStr sec.position.page
  | none => str "1"

/-! ## Concept extraction (`_extract_concepts`, lines 86-154) -/

/-- Maximal runs of word characters in `s` (the token candidates of
`re.findall(r'\b[A-Za-z]{4,}\b', s)` before the filters). -/
def wordRuns : Str → List Str
  | [] => []
  | c :: t =>
    let r := wordRuns t
    if isWordChar c then
      match t with
      | [] => [[c]]
      | d :: _ =>
        if isWordChar d then
          match r with
          | [] => [[c]]
          | w :: ws => (c :: w) :: ws
        else [c] :: r
    else r

/-- Embeds `re.findall(r'\b[A-Za-z]{4,}\b', s)`: the maximal word-character runs
that are purely alphabetic and at least 4 characters long (a run containing
a digit or underscore admits no interior `\b`, so it never matches). -/
def findWords (s : Str) : List Str :=
  (wordRuns s).filter fun w => 4 ≤ w.length && w.all Char.isAlpha

/-- Deduplication keeping the first occurrence of each element, skipping
elements already in `seen`. -/
def firstDedupAux (seen : List Str) : List Str → List Str
  | [] => []
  | a :: l =>
    if a ∈ seen then firstDedupAux seen l
    else a :: firstDedupAux (a :: seen) l

/-- Deduplication keeping the first occurrence of each element — the key
order of a Python `Counter`/`dict` built by insertion. -/
def firstDedup (l : List Str) : List Str := firstDedupAux [] l

/-- The comparison `concepts.sort(key=lambda x: x["importance_score"],
reverse=True)` sorts by: stable, descending score. -/
def scoreGE (a b : Concept) : Prop := b.importance_score ≤ a.importance_score

instance : DecidableRel scoreGE := fun a b =>
  inferInstanceAs (Decidable (b.importance_score ≤ a.importance_score))

instance : IsTotal Concept scoreGE := ⟨fun a b => le_total b.importance_score a.importance_score⟩

instance : IsTrans Concept scoreGE := ⟨fun _ _ _ h h' => le_trans h' h⟩

/-- Embeds `ContentAnalyzer._extract_concepts`.  `cands = some pcs` models the
spaCy path, `pcs` standing for `list(set(entities + noun_chunks))` — the
(term, label) candidates delivered by the external NER/noun-chunk service;
`cands = none` models the frequency fallback used when spaCy is absent. -/
def extract_concepts (cands : Option (List (Str × Str))) (doc : NormalizedDocument) :
    List Concept :=
  let all_text := joinSections doc
  let concepts : List Concept :=
    match cands with
    | some potential_concepts =>
      potential_concepts.filterMap fun cl =>
        if cl.1.length < 2 || 10 < cl.1.length then none
        else
          let count := countWordOccurrences (lowerStr all_text) (lowerStr cl.1)
          let score := calculate_importance_score cl.1 all_text count
          if mkRat 1 10 < score then
            some { term := cl.1
                   definition := find_definition cl.1 doc
                   importance_score := score
                   category := cl.2
                   examples := find_examples cl.1 doc
                   related_concepts := []
                   page_reference := find_page_reference cl.1 doc }
          else none
    | none =>
      let words := findWords all_text
      let total_words := words.length
      (firstDedup words).filterMap fun w =>
        let freq := words.count w
        let score : ℚ := qdiv (freq : ℚ) (total_words : ℚ)
        if mkRat 1 1000 < score then
          some { term := w
                 definition := str "Term '" ++ w ++ str "' from the document"
                 importance_score := score
                 category := str "TERM"
                 examples := []
                 related_concepts := []
                 page_reference := str "1" }
        else none
  List.insertionSort scoreGE concepts

/-! ## Relationship identification (lines 237-314) -/

/-- Embeds `ContentAnalyzer._determine_relationship_type`: priority chain of
pattern checks over a context window around the two concepts' first
occurrences. -/
def determine_relationship_type (concept1 concept2 : Str) (doc : NormalizedDocument) : Str :=
  let all_content := joinSections doc
  let text_lower := lowerStr all_content
  let c1 := lowerStr concept1
  let c2 := lowerStr concept2
  match findAux text_lower c1 0, findAux text_lower c2 0 with
  | some concept1_pos, some concept2_pos =>
    let start_pos := min concept1_pos concept2_pos
    let end_pos := max concept1_pos concept2_pos
    let distance := end_pos - start_pos
    let context := lowerStr (slice all_content (start_pos - 10)
      (min all_content.length (end_pos + 100)))
    if searchChain [c1, str "causes", c2] context ||
        searchChain [c2, str "caused by", c1] context then str "causes"
    else if searchChain [c1, str "part of", c2] context ||
        searchChain [c2, str "contains", c1] context then str "part_of"
    else if searchChain [c1, str "is a", c2] context ||
        searchChain [c1, str "type of", c2] context then str "is_a"
    else if searchChain [c1, str "contrasts with", c2] context ||
        searchChain [c1, str "opposite of", c2] context then str "contrasts_with"
    else if distance < 100 then str "associated_with"
    else str "related_to"
  | _, _ => str "related_to"

/-- Embeds `ContentAnalyzer._identify_relationships`.  `sim i j` models
`cosine_similarity([embeddings[i]], [embeddings[j]])[0][0]`, the pairwise
score delivered by the external sentence-embedding service.  The double
`enumerate` loop with the `i >= j` skip visits index pairs in the order of
`(range n) ×ˢ (range n)` and keeps those with `i < j`. -/
def identify_relationships (sim : Nat → Nat → ℚ) (concepts : List Concept)
    (doc : NormalizedDocument) : List Relationship :=
  let n := concepts.length
  ((List.range n).product (List.range n)).filterMap fun ij =>
    if ij.1 < ij.2 then
      let similarity := sim ij.1 ij.2
      if mkRat 1 2 < similarity then
        let c1 := concepts.getD ij.1 defaultConcept
        let c2 := concepts.getD ij.2 defaultConcept
        some { rel_from := c1.term
               rel_to := c2.term
               rel_type := determine_relationship_type c1.term c2.term doc
               strength := similarity
               description := c1.term ++ str " is related to " ++ c2.term }
      else none
    else none

/-! ## Graph, map and chunking (lines 316-422) -/

/-- A node of `_build_knowledge_graph`. -/
structure GraphNode where
  id : Str
  label : Str
  definition : Str
  importance : ℚ
  category : Str
deriving DecidableEq

/-- An edge of `_build_knowledge_graph`. -/
structure GraphEdge where
  edge_from : Str
  edge_to : Str
  label : Str
  strength : ℚ
  description : Str
deriving DecidableEq

/-- The dict built by `_build_knowledge_graph`. -/
structure KnowledgeGraph where
  nodes : List GraphNode
  edges : List GraphEdge
deriving DecidableEq

/-- Embeds `ContentAnalyzer._build_knowledge_graph`: one node per concept, one
edge per relationship. -/
def build_knowledge_graph (concepts : List Concept) (relationships : List Relationship) :
    KnowledgeGraph where
  nodes := concepts.map fun c =>
    ⟨c.term, c.term, c.definition, c.importance_score, c.category⟩
  edges := relationships.map fun r =>
    ⟨r.rel_from, r.rel_to, r.rel_type, r.strength, r.description⟩

/-- A node of `_create_concept_map`. -/
structure MapNode where
  id : Str
  label : Str
  importance : ℚ
  definition : Str
deriving DecidableEq

/-- The dict built by `_create_concept_map` (metadata counts inlined). -/
structure ConceptMap where
  nodes : List MapNode
  edges : List Relationship
  total_concepts : Nat
  top_concepts_count : Nat
  relationships_count : Nat
deriving DecidableEq

/-- Embeds `ContentAnalyzer._create_concept_map`: top 20 concepts by importance,
relationships restricted to that set, definitions truncated at 100
characters with an ellipsis. -/
def create_concept_map (concepts : List Concept) (relationships : List Relationship) :
    ConceptMap :=
  let top_concepts := (List.insertionSort scoreGE concepts).take 20
  let top_concept_terms := top_concepts.map (·.term)
  let filtered_relationships := relationships.filter fun r =>
    top_concept_terms.contains r.rel_from && top_concept_terms.contains r.rel_to
  { nodes := top_concepts.map fun c =>
      ⟨c.term, c.term, c.importance_score,
        if 100 < c.definition.length then c.definition.take 100 ++ str "..."
        else c.definition⟩
    edges := filtered_relationships
    total_concepts := concepts.length
    top_concepts_count := top_concepts.length
    relationships_count := filtered_relationships.length }

/-- Chunk metadata: the `{"position": …, "type": …}` dict. -/
structure ChunkMeta where
  position : Position
  type : Str
deriving DecidableEq

/-- A content chunk. -/
structure ContentChunk where
  content : Str
  metadata : ChunkMeta
deriving DecidableEq

/-- The section-accumulating loop of `_chunk_content`.  `cur` is
`current_chunk`; `last_meta` is the metadata used for the final flush
(computed from `normalized_document.sections[-1]` at the call site).
When appending the current section would reach 1000 characters the buffer
is flushed as a chunk tagged with the *current* section's position/type
(line 404 reads `section["position"]`), and the current section starts the
new buffer. -/
def chunkAux (last_meta : ChunkMeta) : List Section → Str → List ContentChunk
  | [], cur => if stripStr cur ≠ [] then [⟨stripStr cur, last_meta⟩] else []
  | sec :: rest, cur =>
    if cur.length + sec.content.length < 1000 then
      chunkAux last_meta rest (cur ++ ' ' :: sec.content)
    else if stripStr cur ≠ [] then
      ⟨stripStr cur, ⟨sec.position, sec.type⟩⟩ :: chunkAux last_meta rest sec.content
    else
      chunkAux last_meta rest sec.content

/-- Embeds `ContentAnalyzer._chunk_content`. -/
def chunk_content (doc : NormalizedDocument) : List ContentChunk :=
  let last_meta : ChunkMeta :=
    match doc.sections.getLast? with
    | some sec => ⟨sec.position, sec.type⟩
    | none => ⟨⟨1, 1⟩, str "paragraph"⟩
  chunkAux last_meta doc.sections []

/-! ## Error classification and retry (`app/utils/error_handlers.py`) -/

/-- The Python exception classes `classify_error` distinguishes by
`isinstance`; `nameError` and `generic` cover everything else. -/
inductive ExcKind where
  | timeoutError
  | connectionError
  | osError
  | valueError
  | attributeError
  | keyError
  | runtimeError
  | nameError
  | generic
deriving DecidableEq

/-- A raised Python exception: its class and `str(exception)`. -/
structure PyExc where
  kind : ExcKind
  msg : Str
deriving DecidableEq

/-- Model of `ErrorSeverity` (lines 11-18). -/
inductive ErrorSeverity where
  | TRANSIENT
  | RECOVERABLE
  | PERMANENT
  | CRITICAL
deriving DecidableEq

/-- Embeds `any(keyword in exception_str for keyword in kws)`. -/
def containsAnyKw (s : Str) (kws : List Str) : Bool :=
  kws.any fun k => subContains s k

/-- Embeds `isinstance(exception, (TimeoutError, ConnectionError, OSError))`
(`TimeoutError` and `ConnectionError` are `OSError` subclasses). -/
def isOSErrorKind : ExcKind → Bool
  | .timeoutError | .connectionError | .osError => true
  | _ => false

/-- Embeds `ErrorRecoveryManager.classify_error` (lines 78-117): keyword bands over
the lowercased message, then `isinstance` fallbacks, defaulting to
`RECOVERABLE`. -/
def classify_error (e : PyExc) : ErrorSeverity :=
  let exception_str := lowerStr e.msg
  if containsAnyKw exception_str
      [str "timeout", str "connection", str "network", str "socket",
       str "502", str "503", str "504"] then .TRANSIENT
  else if containsAnyKw exception_str
      [str "rate limit", str "too many requests", str "429", str "quota",
       str "limit exceeded"] then .RECOVERABLE
  else if containsAnyKw exception_str
      [str "validation", str "invalid", str "not found", str "40",
       str "404", str "422"] then .PERMANENT
  else if containsAnyKw exception_str
      [str "database", str "connection failed", str "500",
       str "internal server error"] then .CRITICAL
  else if isOSErrorKind e.kind then .TRANSIENT
  else if e.kind = .valueError || e.kind = .attributeError || e.kind = .keyError then .PERMANENT
  else if e.kind = .runtimeError then .CRITICAL
  else .RECOVERABLE

/-- The attempt loop of `ErrorRecoveryManager.execute_with_retry`
(lines 40-73).  `f i` is the outcome of the `i`-th invocation of the
wrapped async operation; `left = max_retries - attempt` is the number of
retries still allowed (`attempt < max_retries` iff `left > 0`).  The
backoff sleep does not affect attempt counts or outcomes and is omitted.
Returns (number of invocations, final outcome). -/
def retryGo {α : Type} (f : Nat → Except PyExc α) (attempt : Nat) :
    Nat → Nat × Except PyExc α
  | 0 =>
    match f attempt with
    | .ok v => (attempt + 1, .ok v)
    | .error e => (attempt + 1, .error e)
  | left + 1 =>
    match f attempt with
    | .ok v => (attempt + 1, .ok v)
    | .error e =>
      match classify_error e with
      | .TRANSIENT => retryGo f (attempt + 1) left
      | .RECOVERABLE => retryGo f (attempt + 1) left
      | _ => (attempt + 1, .error e)

/-- Embeds `ErrorRecoveryManager.max_retries` (line 26). -/
def default_max_retries : Nat := 3

/-- Embeds `ErrorRecoveryManager.execute_with_retry`: run up to
`max_retries + 1` attempts, retrying `TRANSIENT`/`RECOVERABLE` failures
while attempts remain and re-raising otherwise. -/
def execute_with_retry {α : Type} (f : Nat → Except PyExc α)
    (max_retries : Nat := default_max_retries) : Nat × Except PyExc α :=
  retryGo f 0 max_retries

/-! ## Content-analysis orchestrator (`analyze_content`, lines 45-84) -/

/-- The analysis result dict assembled in `analyze_content`. -/
structure AnalysisResult where
  concepts : List Concept
  relationships : List Relationship
  knowledge_graph : KnowledgeGraph
  concept_map : ConceptMap
  content_chunks : List ContentChunk
deriving DecidableEq

/-- The body of `analyze_content`'s `try` block: extraction →
relationships → graph → map → chunks. -/
def analysis_steps (cands : Option (List (Str × Str))) (sim : Nat → Nat → ℚ)
    (doc : NormalizedDocument) : AnalysisResult :=
  let concepts := extract_concepts cands doc
  let relationships := identify_relationships sim concepts doc
  { concepts := concepts
    relationships := relationships
    knowledge_graph := build_knowledge_graph concepts relationships
    concept_map := create_concept_map concepts relationships
    content_chunks := chunk_content doc }

/-- Embeds `hasattr(normalized_document, 'document_id')`: `document_id` is a
required field of the pydantic `NormalizedDocument`, so this is `True`
for every instance. -/
def hasattr_document_id (_ : NormalizedDocument) : Bool := true

/-- The `NameError` raised by line 51 of `content_analyzer.py`: the module
never imports `document_cache` (defined in `app/utils/cache_manager.py`),
so the name is unbound. -/
def nameErrorDocumentCache : PyExc :=
  ⟨.nameError, str "name 'document_cache' is not defined"⟩

/-- Embeds `ContentAnalyzer.analyze_content`.  Line 50 checks
`hasattr(normalized_document, 'document_id')` (always `True`); line 51 then
evaluates `document_cache.get_analyzed_content(...)`, and since
`document_cache` is never imported into `content_analyzer.py`, Python
raises `NameError` there, before any analysis step runs. -/
def analyze_content (cands : Option (List (Str × Str))) (sim : Nat → Nat → ℚ)
    (doc : NormalizedDocument) : Except PyExc AnalysisResult :=
  if hasattr_document_id doc then .error nameErrorDocumentCache
  else .ok (analysis_steps cands sim doc)

/-! ## Cache manager (`app/utils/cache_manager.py`) -/

/-- The fallible Redis-side operations used by `CacheManager`, as oracles
for the external Redis client (including the adjacent `pickle`
serialization, whose failures the same `try` blocks catch).  `rget`
returning `none` models a falsy reply (key absent). -/
structure RedisOps (V : Type) where
  rget : Str → Except PyExc (Option V)
  rsetex : Str → Int → V → Except PyExc Unit
  rdel : Str → Except PyExc Nat
  rkeys : Str → Except PyExc (List Str)
  rdelMany : List Str → Except PyExc Nat

/-- Model of the `CacheManager` state: the branch flag `use_redis` and the in-memory
dict `_memory_cache` mapping a key to `(value, expiry)`, `expiry = none`
standing for Python `None` (no expiry).  Timestamps (`datetime.now()`)
are rationals. -/
structure CacheState (V : Type) where
  use_redis : Bool
  memory : List (Str × V × Option ℚ)

/-- Dict lookup in `_memory_cache`. -/
def memLookup {V : Type} (mem : List (Str × V × Option ℚ)) (key : Str) :
    Option (V × Option ℚ) :=
  match mem.find? (fun kv => kv.1 = key) with
  | some kv => some kv.2
  | none => none

/-- Dict assignment `_memory_cache[key] = entry` (replaces an existing
binding, else appends). -/
def memInsert {V : Type} (mem : List (Str × V × Option ℚ)) (key : Str)
    (entry : V × Option ℚ) : List (Str × V × Option ℚ) :=
  match mem with
  | [] => [(key, entry)]
  | kv :: rest =>
    if kv.1 = key then (key, entry) :: rest else kv :: memInsert rest key entry

/-- Embeds `del _memory_cache[key]`. -/
def memErase {V : Type} (mem : List (Str × V × Option ℚ)) (key : Str) :
    List (Str × V × Option ℚ) :=
  match mem with
  | [] => []
  | kv :: rest => if kv.1 = key then rest else kv :: memErase rest key

/-- Embeds `CacheManager.get` (lines 45-67): Redis branch guarded by `try/except`
(`None` on any failure); in-memory branch honouring expiry and deleting
expired entries.  `now` is `datetime.now()` at the call. -/
def cmGet {V : Type} (ops : RedisOps V) (st : CacheState V) (key : Str) (now : ℚ) :
    Option V × CacheState V :=
  if st.use_redis then
    match ops.rget key with
    | .ok (some v) => (some v, st)
    | .ok none => (none, st)
    | .error _ => (none, st)
  else
    match memLookup st.memory key with
    | some (v, some expiry) =>
      if now < expiry then (some v, st)
      else (none, { st with memory := memErase st.memory key })
    | some (v, none) => (some v, st)
    | none => (none, st)

/-- Embeds `CacheManager.set` (lines 69-84): returns `True` on success, `False`
when the Redis call (or serialization) raises. -/
def cmSet {V : Type} (ops : RedisOps V) (st : CacheState V) (key : Str) (value : V)
    (ttl : Int) (now : ℚ) : Bool × CacheState V :=
  if st.use_redis then
    match ops.rsetex key ttl value with
    | .ok _ => (true, st)
    | .error _ => (false, st)
  else
    let expiry : Option ℚ := if 0 < ttl then some (qadd now (ttl : ℚ)) else none
    (true, { st with memory := memInsert st.memory key (value, expiry) })

/-- Embeds `CacheManager.delete` (lines 86-100). -/
def cmDelete {V : Type} (ops : RedisOps V) (st : CacheState V) (key : Str) :
    Bool × CacheState V :=
  if st.use_redis then
    match ops.rdel key with
    | .ok n => (n ≠ 0, st)
    | .error _ => (false, st)
  else
    match memLookup st.memory key with
    | some _ => (true, { st with memory := memErase st.memory key })
    | none => (false, st)

/-- Embeds `CacheManager.clear_pattern` (lines 102-125): Redis `keys` + `delete`,
both inside one `try/except` returning `0` on failure; the in-memory
branch deletes keys containing the pattern as a substring. -/
def cmClearPattern {V : Type} (ops : RedisOps V) (st : CacheState V) (pattern : Str) :
    Nat × CacheState V :=
  if st.use_redis then
    match ops.rkeys pattern with
    | .ok keys =>
      if keys.isEmpty then (0, st)
      else
        match ops.rdelMany keys with
        | .ok n => (n, st)
        | .error _ => (0, st)
    | .error _ => (0, st)
  else
    let keys_to_delete := (st.memory.map (·.1)).filter fun k => subContains k pattern
    (keys_to_delete.length,
      { st with memory := keys_to_delete.foldl (fun m k => memErase m k) st.memory })

/-! ## Processing-job orchestrator
(`simulate_document_processing`, `documents.py` lines 123-235) -/

/-- Job status values stored in `processing_jobs[job_id]["status"]`. -/
inductive JobStatus where
  | processing
  | completed
  | failed
deriving DecidableEq

/-- The externally visible fields of a `processing_jobs` record (timestamps
omitted: only ordering matters and the record sequence preserves it). -/
structure JobRec where
  status : JobStatus
  progress : Nat
  message : String
  study_guide_id : Option String := none
deriving DecidableEq

/-- The `except` handler (lines 231-235): status `failed`, message embeds
the error, progress untouched. -/
def failRec (j : JobRec) (e : String) : JobRec :=
  { j with status := .failed, message := "Processing failed: " ++ e }

/-- The `UnboundLocalError` message raised at line 131 (wording as of
CPython 3.11+; earlier versions phrase it as a referenced-before-assignment
error — the exact text does not matter to any theorem). -/
def unbound_local_datetime_msg : String :=
  "cannot access local variable 'datetime' where it is not associated with a value"

/-- The sequence of `processing_jobs[job_id]` record states over a job's
lifetime, starting from the record created at upload (lines 92-101).

Line 158 — `from datetime import datetime` *inside* the function body —
makes `datetime` a local name for the whole function, so the first use at
line 131 (`datetime.utcnow()`) raises `UnboundLocalError` on every
invocation, after progress was set to 5 (line 129) and the message to
`"Starting document parsing..."` (line 130).  The `except` handler
(lines 231-235) then marks the job failed with the error embedded in the
message; its own line 235 uses `datetime` again and re-raises out of the
task, mutating nothing further.  `po`, `ao`, `go`, `dbo` model the
outcomes of the external parse, analysis, generation and database-persist
calls of lines 133-230 and `sgid` the study-guide id the database would
issue — all unreachable code, so they are never consulted. -/
def simulate_document_processing (sgid : String)
    (po ao go dbo : Except String Unit) : List JobRec :=
  let j0 : JobRec := ⟨.processing, 0, "Document uploaded, starting processing...", none⟩
  let j1 := { j0 with progress := 5, message := "Starting document parsing..." }
  [j0, j1, failRec j1 unbound_local_datetime_msg]

/-! ## The repository's duplicate criterion
(`app/utils/validation.py`, used by the deduplication claim) -/

/-- Embeds `QualityAssurance._check_concept_similarity` (validation.py
lines 234-247), the repository's criterion for when two concepts "are
similar enough to be considered duplicates": lowercased terms whose
lengths differ by at most 2 and whose positional common-character count
over `max(len1, len2, 1)` exceeds 0.8. -/
def check_concept_similarity (concept1 concept2 : Concept) : Bool :=
  let term1 := lowerStr concept1.term
  let term2 := lowerStr concept2.term
  if ((term1.length : Int) - (term2.length : Int)).natAbs ≤ 2 then
    let common_chars := ((term1.zip term2).filter fun p => p.1 == p.2).length
    let similarity := qdiv (common_chars : ℚ) ((max term1.length (max term2.length 1) : Nat) : ℚ)
    mkRat 4 5 < similarity
  else
    false

/-! ## Concrete inputs used by witnesses and counterexamples -/

/-- Build a one-line section. -/
def secMk (c : String) (p : Int) (ty : String) : Section :=
  ⟨str ty, 1, str c, ⟨p, p⟩⟩

/-- A document with one non-empty section whose only word is shorter than
4 letters. -/
def docAB : NormalizedDocument := ⟨str "d1", [secMk "ab" 1 "paragraph"]⟩

/-- A document whose fallback extraction yields the near-duplicate terms
`test` and `tests`. -/
def docT : NormalizedDocument := ⟨str "d2", [secMk "test tests" 1 "paragraph"]⟩

/-- A document in which the candidate term `Test` scores above the 0.1
threshold (two whole-word occurrences plus the heading boost). -/
def docDup : NormalizedDocument := ⟨str "d3", [secMk "Test and Test" 1 "paragraph"]⟩

/-- A document whose fallback extraction yields the terms `tester` and
`testes`, duplicates under the repository's similarity criterion
(five of six positions agree: 5/6 > 0.8; lengths equal). -/
def docTester : NormalizedDocument := ⟨str "d5", [secMk "tester testes" 1 "paragraph"]⟩

/-- The candidate list `list(set(entities + noun_chunks))` when the NER
service reports `Test` as an entity and the noun-chunker also reports
`Test`: the same surface term under two labels. -/
def candsDup : List (Str × Str) := [(str "Test", str "ORG"), (str "Test", str "MISC")]

/-- Two 600-character sections: appending the second would overflow the
1000-character budget, so the first is flushed alone. -/
def docC6 : NormalizedDocument :=
  ⟨str "d4",
   [⟨str "paragraph", 1, List.replicate 600 'a', ⟨1, 1⟩⟩,
    ⟨str "heading", 1, List.replicate 600 'b', ⟨2, 2⟩⟩]⟩

/-- A transiently failing operation: `str(e)` contains `"timeout"`, so
`classify_error` puts it in the `TRANSIENT` band; succeeds on the third
invocation. -/
def opTransientTwice : Nat → Except PyExc Nat :=
  fun n => if n < 2 then .error ⟨.generic, str "timeout"⟩ else .ok 42

/-- A permanently failing operation: `str(e)` contains `"invalid"`. -/
def opPermanent : Nat → Except PyExc Nat :=
  fun _ => .error ⟨.generic, str "invalid input"⟩

/-- An always-transiently-failing operation. -/
def opAlwaysTransient : Nat → Except PyExc Nat :=
  fun _ => .error ⟨.generic, str "timeout"⟩

/-- A Redis oracle whose every call raises (connection lost). -/
def failingRedis : RedisOps Nat :=
  { rget := fun _ => .error ⟨.connectionError, str "connection refused"⟩
    rsetex := fun _ _ _ => .error ⟨.connectionError, str "connection refused"⟩
    rdel := fun _ => .error ⟨.connectionError, str "connection refused"⟩
    rkeys := fun _ => .error ⟨.connectionError, str "connection refused"⟩
    rdelMany := fun _ => .error ⟨.connectionError, str "connection refused"⟩ }

/-- A Redis oracle that is never consulted (in-memory mode). -/
def unusedRedis : RedisOps Nat :=
  { rget := fun _ => .ok none
    rsetex := fun _ _ _ => .ok ()
    rdel := fun _ => .ok 0
    rkeys := fun _ => .ok []
    rdelMany := fun _ => .ok 0 }

/-! ## Helper lemmas -/

theorem stripStr_eq_nil_iff {s : Str} : stripStr s = [] ↔ ∀ c ∈ s, isPySpace c := by
  unfold stripStr
  rw [List.reverse_eq_nil_iff, List.dropWhile_eq_nil_iff]
  simp only [List.mem_reverse]
  constructor
  · intro h c hc
    have hc' : c ∈ s.takeWhile isPySpace ++ s.dropWhile isPySpace := by
      rw [List.takeWhile_append_dropWhile]; exact hc
    rcases List.mem_append.1 hc' with h' | h'
    · exact List.mem_takeWhile_imp h'
    · exact h c h'
  · intro h c hc
    exact h c (List.dropWhile_subset _ hc)

theorem stripStr_append_ne_nil {a b : Str} (hb : stripStr b ≠ []) :
    stripStr (a ++ b) ≠ [] := by
  intro h
  exact hb (stripStr_eq_nil_iff.2 fun c hc =>
    stripStr_eq_nil_iff.1 h c (List.mem_append.2 (Or.inr hc)))

theorem stripStr_cons_ne_nil {a : Str} (c : Char) (hb : stripStr a ≠ []) :
    stripStr (c :: a) ≠ [] :=
  stripStr_append_ne_nil (a := [c]) hb

/-- Whatever the running buffer, if the last section's content survives
`strip` then the chunk list is non-empty and its last chunk is tagged with
the metadata passed for the final flush. -/
theorem chunkAux_getLast (m : ChunkMeta) :
    ∀ (sections : List Section) (cur : Str) (sec : Section),
      sections.getLast? = some sec → stripStr sec.content ≠ [] →
      ∃ ch, (chunkAux m sections cur).getLast? = some ch ∧ ch.metadata = m := by
  intro sections
  induction sections with
  | nil => intro cur sec h; simp at h
  | cons s rest ih =>
    intro cur sec hlast hstrip
    match rest, hlast with
    | [], hlast =>
      rw [List.getLast?_singleton, Option.some_inj] at hlast
      subst hlast
      unfold chunkAux
      split
      · unfold chunkAux
        rw [if_pos (stripStr_append_ne_nil (a := cur) (stripStr_cons_ne_nil ' ' hstrip))]
        exact ⟨_, rfl, rfl⟩
      · split
        · unfold chunkAux
          rw [if_pos hstrip]
          exact ⟨_, rfl, rfl⟩
        · unfold chunkAux
          rw [if_pos hstrip]
          exact ⟨_, rfl, rfl⟩
    | r :: rs, hlast =>
      rw [List.getLast?_cons_cons] at hlast
      unfold chunkAux
      split
      · exact ih _ sec hlast hstrip
      · split
        · obtain ⟨ch, hch, hm⟩ := ih s.content sec hlast hstrip
          refine ⟨ch, ?_, hm⟩
          have hne : chunkAux m (r :: rs) s.content ≠ [] := by
            intro hnil
            rw [hnil] at hch
            exact Option.noConfusion hch
          obtain ⟨x, xs, hx⟩ := List.exists_cons_of_ne_nil hne
          rw [hx, List.getLast?_cons_cons, ← hx]
          exact hch
        · exact ih s.content sec hlast hstrip

/-- Looking up a key immediately after inserting it returns the inserted
entry. -/
theorem memLookup_memInsert {V : Type} (mem : List (Str × V × Option ℚ)) (key : Str)
    (entry : V × Option ℚ) : memLookup (memInsert mem key entry) key = some entry := by
  induction mem with
  | nil => simp [memInsert, memLookup, List.find?]
  | cons kv rest ih =>
    unfold memInsert
    by_cases h : kv.1 = key
    · simp [h, memLookup, List.find?]
    · simp only [if_neg h]
      unfold memLookup at ih ⊢
      simp only [List.find?]
      rw [show (decide (kv.1 = key)) = false from decide_eq_false h]
      exact ih

theorem calculate_importance_score_bounds (concept all_text : Str) (frequency : Nat) :
    0 ≤ calculate_importance_score concept all_text frequency ∧
      calculate_importance_score concept all_text frequency ≤ 1 := by
  unfold calculate_importance_score
  simp only [qdiv_eq, qmul_eq, qadd_eq, mkRat_eq_div]
  refine ⟨?_, min_le_right _ _⟩
  refine le_min (add_nonneg (mul_nonneg (le_min (by positivity) (by norm_num)) ?_) ?_)
    (by norm_num)
  · split_ifs <;> norm_num
  · split_ifs <;> norm_num

theorem firstDedupAux_spec :
    ∀ (l seen : List Str),
      (∀ a ∈ firstDedupAux seen l, a ∉ seen) ∧ (firstDedupAux seen l).Nodup := by
  intro l
  induction l with
  | nil => intro seen; exact ⟨by simp [firstDedupAux], by simp [firstDedupAux]⟩
  | cons b l ih =>
    intro seen
    unfold firstDedupAux
    split
    case isTrue h =>
      exact ⟨fun a ha => (ih seen).1 a ha, (ih seen).2⟩
    case isFalse h =>
      constructor
      · intro a ha
        rcases List.mem_cons.1 ha with rfl | ha'
        · exact h
        · intro haseen
          exact (ih (b :: seen)).1 a ha' (List.mem_cons_of_mem _ haseen)
      · refine List.nodup_cons.2 ⟨?_, (ih (b :: seen)).2⟩
        intro hb
        exact (ih (b :: seen)).1 b hb (List.mem_cons_self _ _)

theorem mem_firstDedupAux {a : Str} :
    ∀ {l seen : List Str}, a ∈ firstDedupAux seen l → a ∈ l := by
  intro l
  induction l with
  | nil => intro seen h; simp [firstDedupAux] at h
  | cons b l ih =>
    intro seen h
    unfold firstDedupAux at h
    split at h
    · exact List.mem_cons_of_mem _ (ih h)
    · rcases List.mem_cons.1 h with rfl | h'
      · exact List.mem_cons_self _ _
      · exact List.mem_cons_of_mem _ (ih h')

theorem map_term_filterMap_sublist (g : Str → Option Concept)
    (hg : ∀ w c, g w = some c → c.term = w) :
    ∀ l : List Str, List.Sublist ((l.filterMap g).map (·.term)) l := by
  intro l
  induction l with
  | nil => simp
  | cons a l ih =>
    rw [List.filterMap_cons]
    cases hga : g a with
    | none => exact ih.cons a
    | some c =>
      rw [List.map_cons, hg a c hga]
      exact ih.cons₂ a

/-! ## Claim theorems -/

/-- C1.  For every concept term, text body and frequency, the score of
`_calculate_importance_score` — `min(frequency/10, 0.5)` times the position
factor plus the heading boost, capped at 1.0 — lies in `[0, 1]`; and every
concept emitted by `_extract_concepts` (on either the NER path or the
frequency-fallback path) carries an `importance_score` in `[0, 1]`. -/
theorem C1_importance_score_in_unit_interval :
    (∀ (concept all_text : Str) (frequency : Nat),
       0 ≤ calculate_importance_score concept all_text frequency ∧
         calculate_importance_score concept all_text frequency ≤ 1)
    ∧ ∀ (cands : Option (List (Str × Str))) (doc : NormalizedDocument),
        ∀ c ∈ extract_concepts cands doc,
          0 ≤ c.importance_score ∧ c.importance_score ≤ 1 := by
  refine ⟨calculate_importance_score_bounds, ?_⟩
  intro cands doc c hc
  unfold extract_concepts at hc
  have hc' := (List.perm_insertionSort scoreGE _).mem_iff.1 hc
  cases cands with
  | some pcs =>
    rw [List.mem_filterMap] at hc'
    obtain ⟨cl, _, hcl⟩ := hc'
    dsimp only at hcl
    split_ifs at hcl
    obtain rfl := Option.some_inj.1 hcl
    exact calculate_importance_score_bounds _ _ _
  | none =>
    rw [List.mem_filterMap] at hc'
    obtain ⟨w, hw, hcl⟩ := hc'
    dsimp only at hcl
    split_ifs at hcl with h1
    · obtain rfl := Option.some_inj.1 hcl
      dsimp only
      have hwords : w ∈ findWords (joinSections doc) := mem_firstDedupAux hw
      have hlen : 0 < (findWords (joinSections doc)).length :=
        List.length_pos.2 (List.ne_nil_of_mem hwords)
      have hlenq : (0 : ℚ) < ((findWords (joinSections doc)).length : ℚ) := by
        exact_mod_cast hlen
      rw [qdiv_eq]
      constructor
      · positivity
      · rw [div_le_one hlenq]
        exact_mod_cast List.count_le_length w (findWords (joinSections doc))

/-- Witness for C1: the concept extracted from the document
`"test tests"` has its score inside `[0, 1]`. -/
theorem C1_witness :
    0 ≤ ((extract_concepts none docT).headD defaultConcept).importance_score ∧
      ((extract_concepts none docT).headD defaultConcept).importance_score ≤ 1 :=
  C1_importance_score_in_unit_interval.2 none docT
    ((extract_concepts none docT).headD defaultConcept) (by
      have hne : extract_concepts none docT ≠ [] := by
        intro h
        have hlen : (extract_concepts none docT).length = 2 := by decide
        rw [h] at hlen
        exact absurd hlen (by decide)
      obtain ⟨a, t, heq⟩ := List.exists_cons_of_ne_nil hne
      rw [heq]
      exact List.mem_cons_self a t)

/-- C3 (amended).  For every document (and any NER candidate input),
`_extract_concepts` returns a list whose `importance_score` values form a
monotonically non-increasing sequence.  (The non-emptiness half of the
original claim fails: see the counterexample.) -/
theorem C3_extract_concepts_sorted_desc :
    ∀ (cands : Option (List (Str × Str))) (doc : NormalizedDocument),
      List.Pairwise (fun a b : Concept => b.importance_score ≤ a.importance_score)
        (extract_concepts cands doc) := by
  intro cands doc
  unfold extract_concepts
  exact List.sorted_insertionSort scoreGE _

/-- Counterexample to C3 as stated: `docAB` has one non-empty section, yet
(in the documented spaCy-absent fallback) extraction returns the empty
list — its only word has fewer than 4 letters, so no candidate exists. -/
theorem C3_counterexample :
    docAB.sections ≠ [] ∧ (∀ sec ∈ docAB.sections, sec.content ≠ []) ∧
      extract_concepts none docAB = [] := by decide

/-- C7 (amended).  Fallback extraction deduplicates concepts only by
exact term equality: the emitted terms are pairwise distinct, but
near-duplicates under the repository's own similarity criterion
(`QualityAssurance._check_concept_similarity`, validation.py lines
234-247) are not merged — extraction contains no similarity check at all
(see the counterexample). -/
theorem C7_extract_concepts_terms_nodup :
    ∀ doc : NormalizedDocument, ((extract_concepts none doc).map (·.term)).Nodup := by
  intro doc
  unfold extract_concepts
  dsimp only
  refine (((List.perm_insertionSort scoreGE _).map (·.term)).nodup_iff).2 ?_
  refine List.Sublist.nodup (map_term_filterMap_sublist _ ?_ _)
    ((firstDedupAux_spec _ []).2)
  intro w c hwc
  split_ifs at hwc
  · obtain rfl := Option.some_inj.1 hwc
    rfl

/-- Counterexample to C7 as stated: on `docTester` extraction emits both
`tester` and `testes`, and the pair is a duplicate under the repository's
criterion (`_check_concept_similarity`: equal lengths, 5 of 6 positions
agree, 5/6 > 0.8) — no deduplication beyond exact terms happens. -/
theorem C7_counterexample :
    (extract_concepts none docTester).map (·.term) = [str "tester", str "testes"] ∧
      check_concept_similarity ((extract_concepts none docTester).getD 0 defaultConcept)
        ((extract_concepts none docTester).getD 1 defaultConcept) = true := by decide

theorem getD_term_inj {concepts : List Concept}
    (hnd : (concepts.map fun c => c.term).Nodup) {i j : Nat}
    (hi : i < concepts.length) (hj : j < concepts.length)
    (heq : (concepts.getD i defaultConcept).term = (concepts.getD j defaultConcept).term) :
    i = j := by
  have hi' : i < (concepts.map fun c => c.term).length := by simpa using hi
  have hj' : j < (concepts.map fun c => c.term).length := by simpa using hj
  have h2 : (concepts.map fun c => c.term).get ⟨i, hi'⟩ =
      (concepts.map fun c => c.term).get ⟨j, hj'⟩ := by
    rw [List.getD_eq_getElem _ _ hi, List.getD_eq_getElem _ _ hj] at heq
    simpa using heq
  exact congrArg Fin.val (hnd.get_inj_iff.1 h2)

/-- C2 (amended).  Whenever the concept list has pairwise-distinct
terms, `_identify_relationships` never emits a relationship with
`from == to` and never emits the same unordered pair of terms twice.
(The index guard `i >= j: continue` only separates positions, so a
concept list that repeats a term — which extraction can produce when the
NER service reports the same surface term under two labels — breaks both
properties; see the counterexample.) -/
theorem C2_identify_relationships_no_self_no_dup :
    ∀ (sim : Nat → Nat → ℚ) (concepts : List Concept) (doc : NormalizedDocument),
      (concepts.map fun c => c.term).Nodup →
      (∀ r ∈ identify_relationships sim concepts doc, r.rel_from ≠ r.rel_to) ∧
        List.Pairwise (fun r1 r2 =>
            ¬(r1.rel_from = r2.rel_from ∧ r1.rel_to = r2.rel_to) ∧
              ¬(r1.rel_from = r2.rel_to ∧ r1.rel_to = r2.rel_from))
          (identify_relationships sim concepts doc) := by
  intro sim concepts doc hnd
  constructor
  · intro r hr
    unfold identify_relationships at hr
    rw [List.mem_filterMap] at hr
    obtain ⟨⟨i, j⟩, hmem, hf⟩ := hr
    have hij := List.mem_product.1 hmem
    rw [List.mem_range, List.mem_range] at hij
    dsimp only at hf
    split_ifs at hf with h1 h2
    obtain rfl := Option.some_inj.1 hf
    dsimp only
    intro hcontra
    exact absurd (getD_term_inj hnd (lt_trans h1 hij.2) hij.2 hcontra) (Nat.ne_of_lt h1)
  · unfold identify_relationships
    refine List.pairwise_filterMap.2 ?_
    refine List.Pairwise.imp_of_mem ?_
      (((List.nodup_range _).product (List.nodup_range _)))
    rintro ⟨i, j⟩ ⟨k, l⟩ ha hb hne r1 hr1 r2 hr2
    rw [Option.mem_def] at hr1 hr2
    have hij := List.mem_product.1 ha
    have hkl := List.mem_product.1 hb
    rw [List.mem_range, List.mem_range] at hij hkl
    dsimp only at hr1 hr2
    split_ifs at hr1 with h1 h2
    obtain rfl := Option.some_inj.1 hr1
    split_ifs at hr2 with h3 h4
    obtain rfl := Option.some_inj.1 hr2
    have hi : i < concepts.length := lt_trans h1 hij.2
    have hj : j < concepts.length := hij.2
    have hk : k < concepts.length := lt_trans h3 hkl.2
    have hl : l < concepts.length := hkl.2
    dsimp only
    constructor
    · rintro ⟨hik, hjl⟩
      exact hne (by
        rw [getD_term_inj hnd hi hk hik, getD_term_inj hnd hj hl hjl])
    · rintro ⟨hil, hjk⟩
      have e1 := getD_term_inj hnd hi hl hil
      have e2 := getD_term_inj hnd hj hk hjk
      omega

/-- Counterexample to C2 as stated: extraction on `docDup` with the
candidate list `candsDup` produces two concepts with the same term
`Test`, and relationship identification (with the embedding service
reporting similarity 1 for identical terms) then emits a relationship
whose `from` equals its `to`. -/
theorem C2_counterexample :
    ∃ r ∈ identify_relationships (fun _ _ => 1)
        (extract_concepts (some candsDup) docDup) docDup,
      r.rel_from = r.rel_to := by decide

/-- Witness for C2: the two-concept list extracted from `docT` has
distinct terms, and the conclusion holds for it. -/
theorem C2_witness :
    (∀ r ∈ identify_relationships (fun _ _ => 1) (extract_concepts none docT) docT,
        r.rel_from ≠ r.rel_to) ∧
      List.Pairwise (fun r1 r2 =>
          ¬(r1.rel_from = r2.rel_from ∧ r1.rel_to = r2.rel_to) ∧
            ¬(r1.rel_from = r2.rel_to ∧ r1.rel_to = r2.rel_from))
        (identify_relationships (fun _ _ => 1) (extract_concepts none docT) docT) :=
  C2_identify_relationships_no_self_no_dup (fun _ _ => 1)
    (extract_concepts none docT) docT (by decide)

/-- C9.  `analyze_content` raises for every input: the
`hasattr(normalized_document, 'document_id')` guard is always true
(`document_id` is a required pydantic field) and the unimported name
`document_cache` on line 51 then raises `NameError` before any analysis
step — contradicting the documented never-raise contract of the
analysis path. -/
theorem C9_analyze_content_raises_nameerror :
    ∀ (cands : Option (List (Str × Str))) (sim : Nat → Nat → ℚ)
      (doc : NormalizedDocument),
      analyze_content cands sim doc = Except.error nameErrorDocumentCache :=
  fun _ _ _ => rfl

/-- C4.  The claim's job lifecycle is unreachable: because of the
function-local `from datetime import datetime` (documents.py line 158),
line 131 raises `UnboundLocalError` on every invocation, so — for every
combination of stage outcomes — the recorded trace is progress 0, then 5,
then status `failed` at progress 5 with the error embedded in the
message.  The stage markers 25/50/80/100 and the `completed` status are
never recorded and no job can complete; on the reachable trace the
progress values are still non-decreasing and the failure handler does
retain the last progress value. -/
theorem C4_job_fails_at_progress_five :
    ∀ (sgid : String) (po ao go dbo : Except String Unit),
      simulate_document_processing sgid po ao go dbo =
        [⟨.processing, 0, "Document uploaded, starting processing...", none⟩,
         ⟨.processing, 5, "Starting document parsing...", none⟩,
         ⟨.failed, 5, "Processing failed: " ++ unbound_local_datetime_msg, none⟩]
      ∧ List.Chain' (· ≤ ·)
          ((simulate_document_processing sgid po ao go dbo).map (·.progress))
      ∧ ∀ j ∈ simulate_document_processing sgid po ao go dbo,
          j.progress ≤ 5 ∧ j.status ≠ JobStatus.completed := by
  intro sgid po ao go dbo
  have h : simulate_document_processing sgid po ao go dbo =
      [⟨.processing, 0, "Document uploaded, starting processing...", none⟩,
       ⟨.processing, 5, "Starting document parsing...", none⟩,
       ⟨.failed, 5, "Processing failed: " ++ unbound_local_datetime_msg, none⟩] := rfl
  refine ⟨h, ?_, ?_⟩
  · rw [h]
    norm_num [List.chain'_cons]
  · rw [h]
    intro j hj
    fin_cases hj <;> exact ⟨by norm_num, by decide⟩

/-- C5.  `execute_with_retry` with the default budget of 3 retries:
an operation failing twice with `TRANSIENT`-classified errors and then
succeeding is invoked exactly 3 times and its success value returned; an
operation raising a `PERMANENT`-classified error is invoked exactly once
and the error propagates unchanged; and when all 4 attempts fail with
retryable (`TRANSIENT`/`RECOVERABLE`) errors, the last failure is
re-raised unchanged. -/
theorem C5_execute_with_retry_contract :
    (∀ (α : Type) (f : Nat → Except PyExc α) (e0 e1 : PyExc) (v : α),
       f 0 = .error e0 → f 1 = .error e1 → f 2 = .ok v →
       classify_error e0 = .TRANSIENT → classify_error e1 = .TRANSIENT →
       execute_with_retry f = (3, .ok v))
    ∧ (∀ (α : Type) (f : Nat → Except PyExc α) (e : PyExc),
       f 0 = .error e → classify_error e = .PERMANENT →
       execute_with_retry f = (1, .error e))
    ∧ ∀ (α : Type) (f : Nat → Except PyExc α) (e0 e1 e2 e3 : PyExc),
        f 0 = .error e0 → f 1 = .error e1 → f 2 = .error e2 → f 3 = .error e3 →
        (classify_error e0 = .TRANSIENT ∨ classify_error e0 = .RECOVERABLE) →
        (classify_error e1 = .TRANSIENT ∨ classify_error e1 = .RECOVERABLE) →
        (classify_error e2 = .TRANSIENT ∨ classify_error e2 = .RECOVERABLE) →
        (classify_error e3 = .TRANSIENT ∨ classify_error e3 = .RECOVERABLE) →
        execute_with_retry f = (4, .error e3) := by
  refine ⟨?_, ?_, ?_⟩
  · intro α f e0 e1 v h0 h1 h2 hc0 hc1
    simp [execute_with_retry, default_max_retries, retryGo, h0, h1, h2, hc0, hc1]
  · intro α f e h0 hc
    simp [execute_with_retry, default_max_retries, retryGo, h0, hc]
  · intro α f e0 e1 e2 e3 h0 h1 h2 h3 hc0 hc1 hc2 hc3
    rcases hc0 with hc0 | hc0 <;> rcases hc1 with hc1 | hc1 <;>
      rcases hc2 with hc2 | hc2 <;> rcases hc3 with hc3 | hc3 <;>
      simp [execute_with_retry, default_max_retries, retryGo, h0, h1, h2, h3,
        hc0, hc1, hc2, hc3]

/-- Witness for C5: concrete transiently-failing, permanently-failing and
always-failing operations. -/
theorem C5_witness :
    execute_with_retry opTransientTwice = (3, .ok 42)
    ∧ execute_with_retry opPermanent = (1, .error ⟨.generic, str "invalid input"⟩)
    ∧ execute_with_retry opAlwaysTransient = (4, .error ⟨.generic, str "timeout"⟩) :=
  ⟨C5_execute_with_retry_contract.1 Nat opTransientTwice _ _ 42 rfl rfl rfl
      (by decide) (by decide),
    C5_execute_with_retry_contract.2.1 Nat opPermanent _ rfl (by decide),
    C5_execute_with_retry_contract.2.2 Nat opAlwaysTransient _ _ _ _ rfl rfl rfl rfl
      (Or.inl (by decide)) (Or.inl (by decide)) (Or.inl (by decide)) (Or.inl (by decide))⟩

/-- C6 (amended).  When appending the current section would overflow
the budget and the buffer is non-blank, the flushed chunk is tagged with
the position/type of the section that *triggered* the flush — the section
that starts the next buffer, not the one that started the flushed buffer
(which is what the original claim states; see the counterexample); and
whenever the last section's content is non-blank, the final leftover
buffer is emitted as the last chunk, tagged with the last section's
position/type. -/
theorem C6_chunk_flush_tagging :
    (∀ (sec : Section) (rest : List Section) (cur : Str) (m : ChunkMeta),
       ¬ (cur.length + sec.content.length < 1000) → stripStr cur ≠ [] →
       chunkAux m (sec :: rest) cur =
         ⟨stripStr cur, ⟨sec.position, sec.type⟩⟩ :: chunkAux m rest sec.content)
    ∧ ∀ (doc : NormalizedDocument) (sec : Section),
        doc.sections.getLast? = some sec → stripStr sec.content ≠ [] →
        ∃ ch, (chunk_content doc).getLast? = some ch ∧
          ch.metadata = ⟨sec.position, sec.type⟩ := by
  constructor
  · intro sec rest cur m hover hne
    conv_lhs => rw [chunkAux]
    rw [if_neg hover, if_pos hne]
  · intro doc sec hlast hstrip
    unfold chunk_content
    rw [hlast]
    exact chunkAux_getLast _ _ _ sec hlast hstrip

set_option maxRecDepth 100000 in
/-- Counterexample to C6 as stated: on `docC6` the first chunk holds the
first section's content (the buffer started with section 1) but carries
the *second* section's metadata (page 2, `heading`), not section 1's
(page 1, `paragraph`). -/
theorem C6_counterexample :
    (chunk_content docC6).map (fun ch => (ch.content, ch.metadata)) =
      [(List.replicate 600 'a', ⟨⟨2, 2⟩, str "heading"⟩),
       (List.replicate 600 'b', ⟨⟨2, 2⟩, str "heading"⟩)]
    ∧ (⟨⟨2, 2⟩, str "heading"⟩ : ChunkMeta) ≠ ⟨⟨1, 1⟩, str "paragraph"⟩ := by decide

set_option maxRecDepth 100000 in
/-- Witness for C6: a 1000-character buffer flushed by a fresh section is
tagged with that section's metadata, and `docT`'s final buffer is tagged
with its last section's metadata. -/
theorem C6_witness :
    (chunkAux ⟨⟨1, 1⟩, str "paragraph"⟩ [secMk "w" 3 "heading"] (List.replicate 1000 'x') =
      ⟨stripStr (List.replicate 1000 'x'), ⟨⟨3, 3⟩, str "heading"⟩⟩ ::
        chunkAux ⟨⟨1, 1⟩, str "paragraph"⟩ [] (secMk "w" 3 "heading").content)
    ∧ ∃ ch, (chunk_content docT).getLast? = some ch ∧
        ch.metadata = ⟨⟨1, 1⟩, str "paragraph"⟩ :=
  ⟨C6_chunk_flush_tagging.1 (secMk "w" 3 "heading") [] (List.replicate 1000 'x')
      ⟨⟨1, 1⟩, str "paragraph"⟩ (by decide) (by decide),
    C6_chunk_flush_tagging.2 docT (secMk "test tests" 1 "paragraph") (by decide) (by decide)⟩

/-- C8.  In the in-memory branch, `set(key, value, ttl)` with a
positive TTL followed immediately by `get(key)` returns the stored value;
once the TTL has elapsed (`now + ttl ≤ now2`, no intervening set),
`get(key)` returns `None`. -/
theorem C8_cache_roundtrip :
    ∀ (V : Type) (ops : RedisOps V) (st : CacheState V) (key : Str) (v : V)
      (ttl : Int) (now now2 : ℚ),
      st.use_redis = false → 0 < ttl →
      (cmGet ops (cmSet ops st key v ttl now).2 key now).1 = some v
        ∧ (qadd now (ttl : ℚ) ≤ now2 →
            (cmGet ops (cmSet ops st key v ttl now).2 key now2).1 = none) := by
  intro V ops st key v ttl now now2 hredis httl
  have httlq : (0 : ℚ) < ((ttl : Int) : ℚ) := by exact_mod_cast httl
  have hset : (cmSet ops st key v ttl now).2 =
      { st with memory := memInsert st.memory key (v, some (qadd now (ttl : ℚ))) } := by
    rw [cmSet, hredis]
    simp [httl]
  constructor
  · rw [hset, cmGet, hredis]
    simp only [Bool.false_eq_true, if_false, memLookup_memInsert]
    rw [if_pos]
    rw [qadd_eq]
    linarith
  · intro h2
    rw [hset, cmGet, hredis]
    simp only [Bool.false_eq_true, if_false, memLookup_memInsert]
    rw [if_neg]
    exact not_lt.2 h2

/-- Witness for C8: storing `5` under `"k"` with TTL 60 at time 0 and
reading back at times 0 and 61. -/
theorem C8_witness :
    (cmGet unusedRedis (cmSet unusedRedis ⟨false, []⟩ (str "k") 5 60 0).2 (str "k") 0).1 =
      some 5
    ∧ (cmGet unusedRedis (cmSet unusedRedis ⟨false, []⟩ (str "k") 5 60 0).2 (str "k") 61).1 =
      none :=
  ⟨(C8_cache_roundtrip Nat unusedRedis ⟨false, []⟩ (str "k") 5 60 0 61 rfl
      (by decide)).1,
    (C8_cache_roundtrip Nat unusedRedis ⟨false, []⟩ (str "k") 5 60 0 61 rfl
      (by decide)).2 (by rw [qadd_eq]; norm_num)⟩

/-- C10.  In the Redis branch every cache operation swallows internal
failures and returns its default instead of propagating the exception:
`get` yields `None` (indistinguishable from absence), `set` yields
`False`, `delete` yields `False`, and `clear_pattern` yields `0` — whether
the key listing or the bulk delete fails.  (Totality of the embedded
operations models "returns normally for every input".) -/
theorem C10_cache_ops_swallow_errors :
    ∀ (V : Type) (ops : RedisOps V) (st : CacheState V) (key : Str) (v : V)
      (ttl : Int) (pattern : Str) (now : ℚ) (e : PyExc),
      st.use_redis = true →
      (ops.rget key = .error e → (cmGet ops st key now).1 = none)
      ∧ (ops.rsetex key ttl v = .error e → (cmSet ops st key v ttl now).1 = false)
      ∧ (ops.rdel key = .error e → (cmDelete ops st key).1 = false)
      ∧ (ops.rkeys pattern = .error e → (cmClearPattern ops st pattern).1 = 0)
      ∧ ∀ keys, ops.rkeys pattern = .ok keys → keys.isEmpty = false →
          ops.rdelMany keys = .error e → (cmClearPattern ops st pattern).1 = 0 := by
  intro V ops st key v ttl pattern now e hredis
  refine ⟨?_, ?_, ?_, ?_, ?_⟩
  · intro h
    rw [cmGet, hredis]
    simp [h]
  · intro h
    rw [cmSet, hredis]
    simp [h]
  · intro h
    rw [cmDelete, hredis]
    simp [h]
  · intro h
    rw [cmClearPattern, hredis]
    simp [h]
  · intro keys hk hne h
    rw [cmClearPattern, hredis]
    simp [hk, hne, h]

/-- Witness for C10: a Redis oracle whose every call raises. -/
theorem C10_witness :
    (cmGet failingRedis ⟨true, []⟩ (str "k") 0).1 = none
    ∧ (cmSet failingRedis ⟨true, []⟩ (str "k") 5 60 0).1 = false
    ∧ (cmDelete failingRedis ⟨true, []⟩ (str "k")).1 = false
    ∧ (cmClearPattern failingRedis ⟨true, []⟩ (str "p")).1 = 0 :=
  ⟨(C10_cache_ops_swallow_errors Nat failingRedis ⟨true, []⟩ (str "k") 5 60 (str "p") 0
      ⟨.connectionError, str "connection refused"⟩ rfl).1 rfl,
    (C10_cache_ops_swallow_errors Nat failingRedis ⟨true, []⟩ (str "k") 5 60 (str "p") 0
      ⟨.connectionError, str "connection refused"⟩ rfl).2.1 rfl,
    (C10_cache_ops_swallow_errors Nat failingRedis ⟨true, []⟩ (str "k") 5 60 (str "p") 0
      ⟨.connectionError, str "connection refused"⟩ rfl).2.2.1 rfl,
    (C10_cache_ops_swallow_errors Nat failingRedis ⟨true, []⟩ (str "k") 5 60 (str "p") 0
      ⟨.connectionError, str "connection refused"⟩ rfl).2.2.2.1 rfl⟩

end StudyGen
